import Mathlib

/-!
Verification of the natural-db tenant-isolated execution and scheduling engine.

Shallow embedding of:
- the SQL tenant resolver `public.current_tenant_id()` and the `tenant_isolation`
  row-level-security policies (migration in src/unnamed/part_004);
- the cron job-name derivation, scheduling helpers and domain tools of
  src/supabase/functions/natural-db/tools.ts;
- the two request-handler variants concatenated in
  src/supabase/functions/natural-db/index.ts (a guarded variant that wraps
  message storage in try/catch and calls the model without tools, and an
  unguarded variant that passes tools and lets storage failures propagate);
- the notification-settings upsert and the memories-schema tables of
  src/supabase/migrations/20250809010000_add_memories_realestate_tables.sql.

External effects (Postgres, pg_cron, the OpenAI call, the MCP connector,
outbound fetch) are modelled by explicit state passing and oracle environments
recording which effect succeeds; traces record the insert and delivery attempts
the handlers make.
-/

namespace NaturalDB

/- ===================== Tenant resolver =====================
   src/unnamed/part_004 lines 44-50:
     SELECT coalesce(
       nullif(current_setting('request.jwt.claims', true), '')::jsonb ->> 'tenant_id',
       current_setting('request.header.tenant_id', true)
     )::uuid
   The GUC machinery is embedded as request-local trust material: `jwtClaims`
   is the decoded claims object (none models an unset or empty setting, which
   nullif collapses to NULL), `headerTenantId` the header setting. -/

structure ReqCtx where
  jwtClaims : Option (List (String × String))
  headerTenantId : Option String
deriving DecidableEq

/-- Embeds `nullif(current_setting('request.jwt.claims', true), '')::jsonb ->> 'tenant_id'`. -/
def jwtTenantClaim (ctx : ReqCtx) : Option String :=
  ctx.jwtClaims.bind (List.lookup "tenant_id")

/-- Embeds `public.current_tenant_id()`: coalesce of the JWT claim and the header setting. -/
def current_tenant_id (ctx : ReqCtx) : Option String :=
  match jwtTenantClaim ctx with
  | some t => some t
  | none => ctx.headerTenantId

/- ===================== Row-level security =====================
   src/unnamed/part_004 lines 129-148:
     CREATE POLICY "tenant_isolation" ON public.messages
       USING (tenant_id = public.current_tenant_id())
       WITH CHECK (tenant_id = public.current_tenant_id());
   SQL three-valued logic: when the resolver yields NULL the comparison is not
   true, so no row qualifies. -/

structure MessageRow where
  tenant_id : String
  chat_id : String
  content : String
deriving DecidableEq

/-- The `tenant_isolation` USING predicate evaluated under request context `ctx`. -/
def tenantIsolationUsing (ctx : ReqCtx) (r : MessageRow) : Bool :=
  match current_tenant_id ctx with
  | some t => r.tenant_id == t
  | none => false

/-- A SELECT on `public.messages` under RLS: the policy predicate is conjoined
with the query's own WHERE predicate `p`. -/
def rlsSelect (ctx : ReqCtx) (p : MessageRow → Bool) (table : List MessageRow) :
    List MessageRow :=
  table.filter (fun r => tenantIsolationUsing ctx r && p r)

/-- An INSERT on `public.messages` under RLS: the WITH CHECK predicate (same
expression as USING) must hold for the new row, else the insert fails. -/
def rlsInsert (ctx : ReqCtx) (r : MessageRow) (table : List MessageRow) :
    Option (List MessageRow) :=
  if tenantIsolationUsing ctx r then some (table ++ [r]) else none

/- ===================== Cron job-name derivation =====================
   src/supabase/functions/natural-db/tools.ts line 201:
     const jobName = `fee_${chatId}_${feeId}`.replace(/[^a-zA-Z0-9_]/g, '_').substring(0, 50);
   and lines 15-18:
     const JOB_NAME_REGEX = /^[a-zA-Z0-9_]+$/; -/

def isJobNameChar (c : Char) : Bool :=
  ('a' ≤ c && c ≤ 'z') || ('A' ≤ c && c ≤ 'Z') || ('0' ≤ c && c ≤ '9') || c == '_'

def sanChar (c : Char) : Char :=
  if isJobNameChar c then c else '_'

/-- Embeds `.replace(/[^a-zA-Z0-9_]/g, '_')`. -/
def sanitizeJobName (s : String) : String :=
  String.mk (s.data.map sanChar)

/-- Embeds the template `fee_` ++ chatId ++ `_` ++ feeId sanitized, then `.substring(0, 50)`. -/
def feeJobName (chatId feeId : String) : String :=
  String.mk ((("fee_" ++ chatId ++ "_" ++ feeId).data.map sanChar).take 50)

/-- Embeds `isValidJobName`, the regex `/^[a-zA-Z0-9_]+$/`. -/
def isValidJobName (s : String) : Bool :=
  !s.isEmpty && s.data.all isJobNameChar

/- ===================== Timer registry =====================
   The registry behind `cron.schedule` / `cron.unschedule` (pg_cron, reached
   through executePrivilegedSQL in db-utils.ts, which is not under src/). -/

structure CronJob where
  name : String
  schedule : String
deriving DecidableEq

/-- Modelled from the spec: the process-global timer registry keyed by job
name. §4.6: "`jobName` ... repeated registration attempts for the same entity
are idempotent (re-registering replaces rather than duplicates)" — scheduling
an existing name replaces that entry, otherwise the job is appended. -/
def cronRegistrySchedule (name sched : String) : List CronJob → List CronJob
  | [] => [⟨name, sched⟩]
  | j :: js =>
      if j.name == name then ⟨name, sched⟩ :: js
      else j :: cronRegistrySchedule name sched js

/-- Modelled from the spec: §4.6 "`cancel(jobName) -> Fails(NotFound)`" —
unscheduling a name absent from the registry fails; otherwise the entry is
removed. -/
def cronRegistryUnschedule (name : String) : List CronJob → Option (List CronJob)
  | [] => none
  | j :: js =>
      if j.name == name then some js
      else (cronRegistryUnschedule name js).map (j :: ·)

/-- tools.ts lines 21-35 `scheduleCron`: validates the name, then runs the
privileged `cron.schedule` statement. `sqlOk` is the oracle for the privileged
SQL transport succeeding. -/
def scheduleCron (sqlOk : Bool) (jobName cronExpression : String)
    (reg : List CronJob) : Except String (List CronJob) :=
  if !isValidJobName jobName then .error "Invalid job name format"
  else if !sqlOk then .error "Failed to schedule job: privileged SQL failed"
  else .ok (cronRegistrySchedule jobName cronExpression reg)

/-- tools.ts lines 37-50 `unscheduleCron`: validates the name, then runs the
privileged `cron.unschedule` statement, whose failure (including an absent job
name) surfaces as an error. -/
def unscheduleCron (jobName : String) (reg : List CronJob) :
    Except String (List CronJob) :=
  if !isValidJobName jobName then .error "Invalid job name format"
  else
    match cronRegistryUnschedule jobName reg with
    | some reg' => .ok reg'
    | none => .error "Failed to unschedule job: could not find valid entry"

/-- The scheduling step of `fees_create` (tools.ts lines 200-213): derive the
job name from the chat and fee ids and register it in the timer registry. -/
def registerFeeTrigger (reg : List CronJob) (chatId feeId cronExpression : String) :
    List CronJob :=
  cronRegistrySchedule (feeJobName chatId feeId) cronExpression reg

/- ===================== Memories-schema rows =====================
   src/supabase/migrations/20250809010000_add_memories_realestate_tables.sql -/

structure FeeRow where
  id : String
  tenant_id : String
  chat_id : String
  fee_type : String
  due_day : Nat
  amount : Option Nat
  currency : String
  note : Option String
  is_active : Bool
deriving DecidableEq

structure FeeJobRow where
  tenant_id : String
  fee_id : String
  cron_job_name : String
  cron_expression : String
deriving DecidableEq

structure NotifRow where
  tenant_id : String
  chat_id : String
  email : String
  email_enabled : Option Bool
  calendar_provider : Option String
  default_reminder_minutes : Option Nat
deriving DecidableEq

structure CalEventRow where
  tenant_id : String
  fee_id : String
  external_event_id : String
  provider : String
deriving DecidableEq

/-- The tenant-scoped tables touched by the fee tools, plus the global timer
registry. -/
structure DbState where
  fees : List FeeRow
  feeJobs : List FeeJobRow
  notifSettings : List NotifRow
  feeCalendarEvents : List CalEventRow
  cron : List CronJob
deriving DecidableEq

/-- JS truthiness of an optional number (`if (amount)`): 0 is falsy. -/
def optNatTruthy : Option Nat → Bool
  | some n => n != 0
  | none => false

/-- JS truthiness of an optional string (`if (note)`): "" is falsy. -/
def optStrTruthy : Option String → Bool
  | some s => !s.isEmpty
  | none => false

/-- tools.ts lines 53-70 `getChatEmailSettings`: the single
`notification_settings` row for `(tenant_id, chat_id)`, or the
"No email settings found" error. -/
def getChatEmailSettings (st : DbState) (tenantId chatId : String) :
    Except String (String × Option Bool) :=
  match st.notifSettings.find? (fun r => r.tenant_id == tenantId && r.chat_id == chatId) with
  | some r => .ok (r.email, r.email_enabled)
  | none => .error "No email settings found"

/- ===================== fees_create (tools.ts lines 147-292) ===================== -/

/-- Oracle for the effects `fees_create` performs: the fresh fee id from
`gen_random_uuid()`, the success of each SQL statement, and the MCP connector's
availability and call results (`MCPClientManager.sendEmail` and
`createCalendarEvent` report `success: false` instead of throwing when the
connector is unavailable, mcp-client.ts lines 296-319). -/
structure CreateEnv where
  newFeeId : String
  insertFeeOk : Bool
  scheduleSqlOk : Bool
  insertJobOk : Bool
  insertCalOk : Bool
  mcpAvailable : Bool
  sendEmailOk : Bool
  calendarOk : Bool
  calendarEventId : Option String
deriving DecidableEq

/-- The confirmation message built at tools.ts lines 270-283. -/
def feeConfirmation (fee_type : String) (due_day : Nat) (amount : Option Nat)
    (currency : String) (note : Option String) (emailSent calendarCreated : Bool) :
    String :=
  let m := "✅ " ++ fee_type ++ " fee reminder created for day " ++ toString due_day
      ++ " of each month"
  let m := if optNatTruthy amount then
      m ++ " (" ++ currency ++ " " ++ toString (amount.getD 0) ++ ")" else m
  let m := if optStrTruthy note then m ++ " - " ++ note.getD "" else m
  let m := if emailSent then m ++ "\n📧 Confirmation email sent" else m
  if calendarCreated then m ++ "\n📅 Calendar event created" else m

/-- The email-and-calendar confirmation branch of `fees_create`
(tools.ts lines 226-268), entered only when settings exist with a truthy email
and enabled flag and `mcpClient?.isAvailable()`; returns
`(emailSent, calendarCreated)` and the possibly extended state. -/
def feesCreateEmailBranch (env : CreateEnv) (tenantId chatId feeId : String)
    (st : DbState) : Bool × Bool × DbState :=
  match getChatEmailSettings st tenantId chatId with
  | .error _ => (false, false, st)
  | .ok (email, enabled) =>
    if !email.isEmpty && enabled == some true && env.mcpAvailable then
      if env.sendEmailOk then
        if env.calendarOk && optStrTruthy env.calendarEventId then
          let st' := if env.insertCalOk then
              { st with feeCalendarEvents := st.feeCalendarEvents ++
                  [⟨tenantId, feeId, env.calendarEventId.getD "", "google"⟩] }
            else st
          (true, true, st')
        else (true, false, st)
      else (false, false, st)
    else (false, false, st)

/-- Embeds `fees_create` (tools.ts lines 181-291): insert the fee row, register the
monthly cron job under the derived name, record the job row (its insert result
is not checked), optionally send the email/calendar confirmation, and return
the confirmation message. -/
def feesCreate (env : CreateEnv) (tenantId chatId fee_type : String) (due_day : Nat)
    (amount : Option Nat) (currency : String) (note : Option String)
    (st : DbState) : DbState × Except String String :=
  if !env.insertFeeOk then (st, .error "Failed to create fee: restricted SQL failed")
  else
    let feeId := env.newFeeId
    let st1 := { st with fees := st.fees ++
        [⟨feeId, tenantId, chatId, fee_type, due_day, amount, currency, note, true⟩] }
    let cronExpression := "0 9 " ++ toString due_day ++ " * *"
    let jobName := feeJobName chatId feeId
    match scheduleCron env.scheduleSqlOk jobName cronExpression st1.cron with
    | .error e => (st1, .error ("Fee created but scheduling failed: " ++ e))
    | .ok cron' =>
      let st2 := { st1 with cron := cron' }
      let st3 := if env.insertJobOk then
          { st2 with feeJobs := st2.feeJobs ++ [⟨tenantId, feeId, jobName, cronExpression⟩] }
        else st2
      let (emailSent, calendarCreated, st4) :=
        feesCreateEmailBranch env tenantId chatId feeId st3
      (st4, .ok (feeConfirmation fee_type due_day amount currency note emailSent calendarCreated))

/- ===================== fees_cancel (tools.ts lines 341-416) ===================== -/

/-- Oracle for the SQL statements `fees_cancel` runs; the error of the
fee_jobs lookup is never checked in the source (its rows default to `[]`),
so `jobSelectOk = false` behaves like an empty result. -/
structure CancelEnv where
  selectFeeOk : Bool
  updateOk : Bool
  jobSelectOk : Bool
deriving DecidableEq

/-- Embeds `fees_cancel` (tools.ts lines 360-416): find the active fee, mark it
inactive, look up its cron job row, and unschedule that job; an unschedule
failure is returned as an error, and the fee_jobs row is never deleted. -/
def feesCancel (env : CancelEnv) (tenantId chatId fee_type : String) (due_day : Nat)
    (st : DbState) : DbState × Except String String :=
  if !env.selectFeeOk then (st, .error "Failed to find fee: restricted SQL failed")
  else
    match st.fees.find? (fun f => f.tenant_id == tenantId && f.chat_id == chatId &&
        f.fee_type == fee_type && f.due_day == due_day && f.is_active) with
    | none => (st, .ok ("No active " ++ fee_type ++ " fee found for day "
        ++ toString due_day ++ "."))
    | some fee =>
      if !env.updateOk then (st, .error "Failed to cancel fee: restricted SQL failed")
      else
        let st1 := { st with fees := st.fees.map (fun f =>
            if f.id == fee.id && f.tenant_id == tenantId then
              { f with is_active := false } else f) }
        let jobRows := if env.jobSelectOk then
            st1.feeJobs.filter (fun j => j.tenant_id == tenantId && j.fee_id == fee.id)
          else []
        match jobRows.head? with
        | none => (st1, .ok ("✅ " ++ fee_type ++ " fee reminder for day "
            ++ toString due_day ++ " has been cancelled."))
        | some jobRow =>
          match unscheduleCron jobRow.cron_job_name st1.cron with
          | .error e => (st1, .error ("Fee cancelled but failed to unschedule job: " ++ e))
          | .ok cron' => ({ st1 with cron := cron' },
              .ok ("✅ " ++ fee_type ++ " fee reminder for day "
                ++ toString due_day ++ " has been cancelled."))

/- ============ notifications_set_email_prefs (tools.ts lines 634-690) ============ -/

/-- Key equality of `memories.notification_settings`: PRIMARY KEY (tenant_id, chat_id)
(migration lines 73-83). -/
def notifSameKey (a b : NotifRow) : Bool :=
  a.tenant_id == b.tenant_id && a.chat_id == b.chat_id

/-- Embeds `INSERT ... ON CONFLICT (tenant_id, chat_id) DO UPDATE SET ...`: the primary
key admits at most one conflicting row, which is overwritten with the excluded
values; with no conflict the new row is inserted. -/
def upsertNotif (row : NotifRow) : List NotifRow → List NotifRow
  | [] => [row]
  | r :: rs => if notifSameKey r row then row :: rs else r :: upsertNotif row rs

/-- Embeds `notifications_set_email_prefs` (tools.ts lines 661-690): upsert the
settings row for `(tenant_id, chat_id)` with the invocation's arguments
(optional arguments bind as NULL and overwrite on conflict). -/
def setEmailPrefs (tenantId chatId email : String) (email_enabled : Option Bool)
    (calendar_provider : Option String) (default_reminder_minutes : Option Nat)
    (tbl : List NotifRow) : List NotifRow :=
  upsertNotif ⟨tenantId, chatId, email, email_enabled, calendar_provider,
    default_reminder_minutes⟩ tbl

/- ===================== Inbound payload validation =====================
   index.ts lines 71-80 `IncomingPayloadSchema` (zod). The raw body's fields
   are optional; the `id` union string|number is collapsed to its string form
   as the handler does (`id.toString()`). -/

structure RawPayload where
  userPrompt : Option String
  chatId : Option String
  userId : Option String
  tenantId : Option String
  incomingMessageRole : Option String
  callbackUrl : Option String
deriving DecidableEq

def isHexDigit (c : Char) : Bool :=
  ('0' ≤ c && c ≤ '9') || ('a' ≤ c && c ≤ 'f') || ('A' ≤ c && c ≤ 'F')

/-- Split a character list at a separator (grouping like `String.splitOn`
for a one-character separator). -/
def splitOnChar (sep : Char) : List Char → List (List Char)
  | [] => [[]]
  | c :: cs =>
    if c == sep then [] :: splitOnChar sep cs
    else
      match splitOnChar sep cs with
      | [] => [[c]]
      | g :: gs => (c :: g) :: gs

/-- The tenantId regex `/^[0-9a-f]{8}-[0-9a-f]{4}-[0-9a-f]{4}-[0-9a-f]{4}-[0-9a-f]{12}$/i`:
five dash-separated hex groups of lengths 8, 4, 4, 4, 12. -/
def isUuidFormat (s : String) : Bool :=
  match splitOnChar '-' s.data with
  | [a, b, c, d, e] =>
      a.length == 8 && b.length == 4 && c.length == 4 && d.length == 4 &&
      e.length == 12 && a.all isHexDigit && b.all isHexDigit &&
      c.all isHexDigit && d.all isHexDigit && e.all isHexDigit
  | _ => false

/-- Embeds `z.enum(["user", "assistant", "system", "system_routine_task"])`. -/
def isValidRole (r : String) : Bool :=
  r == "user" || r == "assistant" || r == "system" || r == "system_routine_task"

/-- Occurrence of the `://` scheme separator. -/
def hasSchemeSep : List Char → Bool
  | ':' :: '/' :: '/' :: _ => true
  | _ :: rest => hasSchemeSep rest
  | [] => false

/-- Shallow stand-in for zod's `z.string().url()`: a nonempty scheme followed
by `://`. The claims only rely on validated callback urls being nonempty. -/
def isUrlShaped (s : String) : Bool :=
  match s.data with
  | [] => false
  | c :: rest => c != ':' && hasSchemeSep (c :: rest)

structure Payload where
  userPrompt : String
  chatId : String
  userId : String
  tenantId : String
  incomingMessageRole : String
  callbackUrl : String
deriving DecidableEq

/-- Embeds `IncomingPayloadSchema.safeParse`: every required field present,
`userPrompt` nonempty (`min(1)`), `tenantId` UUID-shaped, the role in the
enum, and the callback a url. -/
def parsePayload (raw : RawPayload) : Option Payload :=
  match raw.userPrompt, raw.chatId, raw.userId, raw.tenantId,
      raw.incomingMessageRole, raw.callbackUrl with
  | some up, some cid, some uid, some tid, some role, some cb =>
      if !up.isEmpty && isUuidFormat tid && isValidRole role && isUrlShaped cb then
        some ⟨up, cid, uid, tid, role, cb⟩
      else none
  | _, _, _, _, _, _ => none

/- ===================== The request handlers =====================
   index.ts holds two concatenated variants of the `Deno.serve` handler.
   The oracle environment fixes the outcome of every awaited effect; the
   Outcome records the insertMessage calls and callback fetches attempted. -/

structure MessageInsert where
  user_id : String
  role : String
  content : String
  chat_id : String
  tenant_id : String
deriving DecidableEq

structure Delivery where
  url : String
  finalResponse : String
deriving DecidableEq

structure Outcome where
  status : Nat
  inserts : List MessageInsert
  deliveries : List Delivery
deriving DecidableEq

deriving instance DecidableEq for Except

structure HandlerEnv where
  loadMessagesOk : Bool
  activePrompt : Option String
  openaiResult : Except String String
  embedUserOk : Bool
  insertUserOk : Bool
  embedAssistantOk : Bool
  insertAssistantOk : Bool
  deliveryOk : Bool
deriving DecidableEq

/-- The top-level catch's reply, index.ts line 344 / 582. -/
def apologyText : String := "Sorry, an internal error occurred."

/-- The fallback reply of the guarded variant's caught OpenAI failure,
index.ts line 281. -/
def guardedFinalResponse (env : HandlerEnv) : String :=
  match env.openaiResult with
  | .ok t => t
  | .error m => "Sorry, I encountered an error processing your request. Error: " ++ m

/-- The guarded handler variant (index.ts lines 85-361): returns 400 on an
invalid body, returns 500 with no delivery when message loading fails
(lines 146-158), evaluates the default system prompt — whose template reads
`mcpClient` before its `let` declaration at line 214, raising a ReferenceError
caught at top level — only when no active prompt row exists, calls the model
without tools with the failure caught (lines 269-282), wraps both
insertMessage calls in a swallowing try/catch (lines 284-312), and finally
fetches the callback (lines 314-328); a fetch rejection reaches the top-level
catch, which attempts the apology delivery (lines 337-359). -/
def handleGuarded (env : HandlerEnv) (body : Option RawPayload) : Outcome :=
  match body with
  | none => ⟨500, [], []⟩
  | some raw =>
    match parsePayload raw with
    | none => ⟨400, [], []⟩
    | some p =>
      if !env.loadMessagesOk then ⟨500, [], []⟩
      else
        match env.activePrompt with
        | none => ⟨500, [], [⟨p.callbackUrl, apologyText⟩]⟩
        | some _ =>
          let finalResponse := guardedFinalResponse env
          let userIns : MessageInsert :=
            ⟨p.userId, p.incomingMessageRole, p.userPrompt, p.chatId, p.tenantId⟩
          let asstIns : MessageInsert :=
            ⟨p.userId, "assistant", finalResponse, p.chatId, p.tenantId⟩
          let inserts :=
            if !env.embedUserOk then []
            else if !env.insertUserOk then [userIns]
            else if !env.embedAssistantOk then [userIns]
            else [userIns, asstIns]
          if env.deliveryOk then ⟨200, inserts, [⟨p.callbackUrl, finalResponse⟩]⟩
          else ⟨500, inserts, [⟨p.callbackUrl, finalResponse⟩, ⟨p.callbackUrl, apologyText⟩]⟩

/-- The unguarded handler variant (index.ts lines 362-599): identical parsing,
but message loading, the tool-enabled model call and both insertMessage calls
run without try/catch, so any failure propagates to the top-level catch, which
attempts the apology delivery using the already-parsed callback url. -/
def handleUnguarded (env : HandlerEnv) (body : Option RawPayload) : Outcome :=
  match body with
  | none => ⟨500, [], []⟩
  | some raw =>
    match parsePayload raw with
    | none => ⟨400, [], []⟩
    | some p =>
      let abort : List MessageInsert → Outcome := fun ins =>
        ⟨500, ins, [⟨p.callbackUrl, apologyText⟩]⟩
      if !env.loadMessagesOk then abort []
      else
        match env.openaiResult with
        | .error _ => abort []
        | .ok finalResponse =>
          let userIns : MessageInsert :=
            ⟨p.userId, p.incomingMessageRole, p.userPrompt, p.chatId, p.tenantId⟩
          let asstIns : MessageInsert :=
            ⟨p.userId, "assistant", finalResponse, p.chatId, p.tenantId⟩
          if !env.embedUserOk then abort []
          else if !env.insertUserOk then abort [userIns]
          else if !env.embedAssistantOk then abort [userIns]
          else if !env.insertAssistantOk then abort [userIns, asstIns]
          else if env.deliveryOk then ⟨200, [userIns, asstIns], [⟨p.callbackUrl, finalResponse⟩]⟩
          else ⟨500, [userIns, asstIns],
              [⟨p.callbackUrl, finalResponse⟩, ⟨p.callbackUrl, apologyText⟩]⟩

/- ===================== Orchestration step loop ===================== -/

/-- One generation result: the produced text and whether a further tool call
is requested. -/
structure GenStep where
  text : String
  requestsTool : Bool

/-- Modelled from the spec: §4.5 "State machine per inbound request, terminal
on first of: a generation result with no further tool call, or a fixed step
ceiling". The generate/tool-call cycle itself runs inside the external `ai`
library's generateText (called at index.ts lines 270 and 521), not under src/.
`runLoop gen fuel i last` consumes one fuel per generation step; it returns
the number of steps taken and the last produced text. -/
def runLoop (gen : Nat → GenStep) : Nat → Nat → String → Nat × String
  | 0, i, last => (i, last)
  | fuel + 1, i, _ =>
      let r := gen i
      if r.requestsTool then runLoop gen fuel (i + 1) r.text
      else (i + 1, r.text)

/-- Run the loop from the start with a step ceiling. -/
def orchestrate (gen : Nat → GenStep) (ceiling : Nat) : Nat × String :=
  runLoop gen ceiling 0 ""

/-- After the loop ends the handler unconditionally attempts the callback
delivery of the final text (index.ts lines 314-328 / 552-566). -/
def orchestrateAndDeliver (gen : Nat → GenStep) (ceiling : Nat)
    (callbackUrl : String) : Nat × List Delivery :=
  ((orchestrate gen ceiling).1, [⟨callbackUrl, (orchestrate gen ceiling).2⟩])

/- ===================== Counting helpers and concrete fixtures ===================== -/

/-- Number of registry jobs carrying a given name. -/
def countJob (n : String) (reg : List CronJob) : Nat :=
  (reg.filter (fun j => j.name == n)).length

/-- Number of notification_settings rows carrying a given primary key. -/
def countNotifKey (t c : String) (tbl : List NotifRow) : Nat :=
  (tbl.filter (fun r => r.tenant_id == t && r.chat_id == c)).length

/-- A well-formed inbound body: tenant 1111… posting "hello" into the shared
chat id, as in the isolation smoke test. -/
def sampleRaw : RawPayload :=
  ⟨some "hello", some "shared_chat_123", some "u1",
    some "11111111-1111-1111-1111-111111111111", some "user",
    some "https://cb.example/out"⟩

/-- The payload `sampleRaw` validates to. -/
def samplePayload : Payload :=
  ⟨"hello", "shared_chat_123", "u1", "11111111-1111-1111-1111-111111111111",
    "user", "https://cb.example/out"⟩

/-- An environment where every awaited effect succeeds. -/
def envAllOk : HandlerEnv :=
  ⟨true, some "custom prompt", .ok "the reply", true, true, true, true, true⟩

/-- Like `envAllOk` but the inbound-message insert fails. -/
def envInsertFail : HandlerEnv :=
  ⟨true, some "custom prompt", .ok "the reply", true, false, true, true, true⟩

/- ===================== Helper lemmas ===================== -/

theorem sanChar_valid (c : Char) : isJobNameChar (sanChar c) = true := by
  unfold sanChar
  cases h : isJobNameChar c
  · simp [h]
    decide
  · simp [h]

theorem mk_ne_empty (a : Char) (l : List Char) : String.mk (a :: l) ≠ "" := by
  intro h
  have h2 : (a :: l) = ([] : List Char) := by
    have h3 := congrArg String.data h
    simp at h3
  simp at h2

theorem countJob_schedule (n e : String) (reg : List CronJob)
    (h : countJob n reg ≤ 1) : countJob n (cronRegistrySchedule n e reg) = 1 := by
  induction reg with
  | nil => simp [countJob, cronRegistrySchedule]
  | cons j js ih =>
    cases hj : (j.name == n)
    · have hcount : countJob n (j :: js) = countJob n js := by
        simp [countJob, hj]
      rw [hcount] at h
      simp only [cronRegistrySchedule, hj, Bool.false_eq_true, if_false]
      have : countJob n (j :: cronRegistrySchedule n e js) =
          countJob n (cronRegistrySchedule n e js) := by
        simp [countJob, hj]
      rw [this]
      exact ih h
    · have hzero : countJob n js = 0 := by
        have : countJob n (j :: js) = countJob n js + 1 := by
          simp [countJob, hj]
        omega
      simp only [cronRegistrySchedule, hj, if_true]
      have hnil : js.filter (fun j => j.name == n) = [] := by
        have := hzero
        simpa [countJob, List.length_eq_zero] using this
      simp [countJob, hnil]

theorem cronRegistrySchedule_idem (n e : String) (reg : List CronJob) :
    cronRegistrySchedule n e (cronRegistrySchedule n e reg) =
      cronRegistrySchedule n e reg := by
  induction reg with
  | nil => simp [cronRegistrySchedule]
  | cons j js ih =>
    cases hj : (j.name == n)
    · simp only [cronRegistrySchedule, hj, Bool.false_eq_true, if_false]
      rw [ih]
    · simp [cronRegistrySchedule, hj]

theorem notifSameKey_self (a : NotifRow) : notifSameKey a a = true := by
  simp [notifSameKey]

theorem upsertNotif_count (row : NotifRow) (tbl : List NotifRow)
    (h : countNotifKey row.tenant_id row.chat_id tbl ≤ 1) :
    countNotifKey row.tenant_id row.chat_id (upsertNotif row tbl) = 1 := by
  induction tbl with
  | nil => simp [countNotifKey, upsertNotif]
  | cons r rs ih =>
    cases hk : notifSameKey r row
    · have hk' := hk
      simp only [notifSameKey] at hk'
      have hcount : countNotifKey row.tenant_id row.chat_id (r :: rs) =
          countNotifKey row.tenant_id row.chat_id rs := by
        simp [countNotifKey, hk']
      rw [hcount] at h
      simp only [upsertNotif, hk, Bool.false_eq_true, if_false]
      have hstep : countNotifKey row.tenant_id row.chat_id (r :: upsertNotif row rs) =
          countNotifKey row.tenant_id row.chat_id (upsertNotif row rs) := by
        simp [countNotifKey, hk']
      rw [hstep]
      exact ih h
    · have hk' := hk
      simp only [notifSameKey] at hk'
      have hzero : countNotifKey row.tenant_id row.chat_id rs = 0 := by
        have : countNotifKey row.tenant_id row.chat_id (r :: rs) =
            countNotifKey row.tenant_id row.chat_id rs + 1 := by
          simp [countNotifKey, hk']
        omega
      have hnil : rs.filter (fun x => x.tenant_id == row.tenant_id &&
          x.chat_id == row.chat_id) = [] := by
        simpa [countNotifKey, List.length_eq_zero] using hzero
      simp only [upsertNotif, hk, if_true]
      simp [countNotifKey, hnil]

theorem upsertNotif_idem (row : NotifRow) (tbl : List NotifRow) :
    upsertNotif row (upsertNotif row tbl) = upsertNotif row tbl := by
  induction tbl with
  | nil => simp [upsertNotif, notifSameKey_self]
  | cons r rs ih =>
    cases hk : notifSameKey r row
    · simp only [upsertNotif, hk, Bool.false_eq_true, if_false]
      rw [ih]
    · simp only [upsertNotif, hk, if_true]
      simp [upsertNotif, notifSameKey_self]

theorem upsertNotif_key_rows (row : NotifRow) (tbl : List NotifRow)
    (h : countNotifKey row.tenant_id row.chat_id tbl ≤ 1) :
    ∀ r ∈ upsertNotif row tbl,
      (r.tenant_id == row.tenant_id && r.chat_id == row.chat_id) = true → r = row := by
  induction tbl with
  | nil =>
    intro r hr _
    simpa [upsertNotif] using hr
  | cons r0 rs ih =>
    cases hk : notifSameKey r0 row
    · have hk' := hk
      simp only [notifSameKey] at hk'
      have hcount : countNotifKey row.tenant_id row.chat_id (r0 :: rs) =
          countNotifKey row.tenant_id row.chat_id rs := by
        simp [countNotifKey, hk']
      rw [hcount] at h
      intro r hr hkey
      simp only [upsertNotif, hk, Bool.false_eq_true, if_false] at hr
      rcases List.mem_cons.mp hr with h0 | h1
      · subst h0
        rw [hkey] at hk'
        cases hk'
      · exact ih h r h1 hkey
    · have hk' := hk
      simp only [notifSameKey] at hk'
      have hzero : countNotifKey row.tenant_id row.chat_id rs = 0 := by
        have : countNotifKey row.tenant_id row.chat_id (r0 :: rs) =
            countNotifKey row.tenant_id row.chat_id rs + 1 := by
          simp [countNotifKey, hk']
        omega
      intro r hr hkey
      simp only [upsertNotif, hk, if_true] at hr
      rcases List.mem_cons.mp hr with h0 | h1
      · exact h0
      · exfalso
        have hmem : r ∈ rs.filter (fun x => x.tenant_id == row.tenant_id &&
            x.chat_id == row.chat_id) := List.mem_filter.mpr ⟨h1, hkey⟩
        have hnil : rs.filter (fun x => x.tenant_id == row.tenant_id &&
            x.chat_id == row.chat_id) = [] := by
          simpa [countNotifKey, List.length_eq_zero] using hzero
        rw [hnil] at hmem
        simp at hmem

theorem cronRegistryUnschedule_not_found (n : String) (reg : List CronJob)
    (h : ∀ j ∈ reg, j.name ≠ n) : cronRegistryUnschedule n reg = none := by
  induction reg with
  | nil => rfl
  | cons j js ih =>
    have hj : (j.name == n) = false := by
      simp [h j (List.mem_cons_self j js)]
    simp only [cronRegistryUnschedule, hj, Bool.false_eq_true, if_false]
    rw [ih (fun x hx => h x (List.mem_cons_of_mem j hx))]
    rfl

theorem feeJobName_valid (c f : String) : isValidJobName (feeJobName c f) = true := by
  unfold isValidJobName feeJobName
  rw [Bool.and_eq_true]
  constructor
  · have hdata : ∃ rest, ("fee_" ++ c ++ "_" ++ f).data = 'f' :: rest := by
      rw [String.data_append, String.data_append, String.data_append]
      exact ⟨_, rfl⟩
    obtain ⟨rest, hrest⟩ := hdata
    rw [hrest, List.map_cons]
    have htake : (sanChar 'f' :: List.map sanChar rest).take 50 =
        sanChar 'f' :: (List.map sanChar rest).take 49 := rfl
    rw [htake, Bool.not_eq_true']
    cases hE : (String.mk (sanChar 'f' :: (List.map sanChar rest).take 49)).isEmpty
    · rfl
    · exfalso
      exact mk_ne_empty _ _ ((String.isEmpty_iff _).mp hE)
  · rw [List.all_eq_true]
    intro x hx
    have hx' : x ∈ (("fee_" ++ c ++ "_" ++ f).data.map sanChar).take 50 := hx
    have hx'' := List.take_subset _ _ hx'
    rcases List.mem_map.mp hx'' with ⟨y, _, hy⟩
    rw [← hy]
    exact sanChar_valid y

theorem feesCreateEmailBranch_no_email (env : CreateEnv)
    (tenantId chatId feeId : String) (st : DbState)
    (hmail : (env.mcpAvailable && env.sendEmailOk) = false) :
    feesCreateEmailBranch env tenantId chatId feeId st = (false, false, st) := by
  unfold feesCreateEmailBranch
  cases hs : getChatEmailSettings st tenantId chatId with
  | error e => rfl
  | ok pair =>
    obtain ⟨email, enabled⟩ := pair
    cases hA : env.mcpAvailable
    · simp [hA]
    · have hE : env.sendEmailOk = false := by
        rw [hA] at hmail
        simpa using hmail
      cases hx : (!email.isEmpty && (enabled == some true)) <;> simp [hA, hE, hx]

theorem runLoop_steps_le (gen : Nat → GenStep) :
    ∀ (fuel i : Nat) (last : String), (runLoop gen fuel i last).1 ≤ i + fuel := by
  intro fuel
  induction fuel with
  | zero => intro i last; simp [runLoop]
  | succ f ih =>
    intro i last
    simp only [runLoop]
    cases hg : (gen i).requestsTool
    · simp only [hg, Bool.false_eq_true, if_false]
      show i + 1 ≤ i + (f + 1)
      omega
    · simp only [hg, if_true]
      have := ih (i + 1) (gen i).text
      omega

theorem runLoop_always_tool (gen : Nat → GenStep)
    (h : ∀ i, (gen i).requestsTool = true) :
    ∀ fuel : Nat, 0 < fuel → ∀ (i : Nat) (last : String),
      runLoop gen fuel i last = (i + fuel, (gen (i + fuel - 1)).text) := by
  intro fuel
  induction fuel with
  | zero => intro h0; exact absurd h0 (by omega)
  | succ f ih =>
    intro _ i last
    simp only [runLoop, h i, if_true]
    rcases Nat.eq_zero_or_pos f with h0 | hf
    · subst h0
      simp [runLoop]
    · rw [ih hf (i + 1) ((gen i).text)]
      have e : i + 1 + f = i + (f + 1) := by omega
      rw [e]

/- ===================== Claim theorems ===================== -/

/-- C2: tenant resolution is a pure function of the request's trust material
with fixed precedence: when the verified JWT claims carry a tenant_id, the
resolver returns it (the context header is ignored); when they do not, the
resolver falls back to the header; and the result depends on nothing but the
request-local claims and header (no prior request can influence it). -/
theorem resolver_precedence_deterministic (ctx : ReqCtx) (t : String)
    (hclaim : jwtTenantClaim ctx = some t) :
    current_tenant_id ctx = some t ∧
    (∀ ctx' : ReqCtx, ctx'.jwtClaims = ctx.jwtClaims →
      ctx'.headerTenantId = ctx.headerTenantId →
      current_tenant_id ctx' = current_tenant_id ctx) ∧
    (∀ c : ReqCtx, jwtTenantClaim c = none → current_tenant_id c = c.headerTenantId) := by
  refine ⟨?_, ?_, ?_⟩
  · simp [current_tenant_id, hclaim]
  · intro ctx' h1 h2
    cases ctx
    cases ctx'
    simp_all
  · intro c hc
    simp [current_tenant_id, hc]

/-- Witness for C2 at a concrete request: the JWT claim names tenant 1111…,
the header names tenant 2222…, and resolution returns the claim's tenant. -/
theorem resolver_precedence_deterministic_witness :
    jwtTenantClaim ⟨some [("tenant_id", "11111111-1111-1111-1111-111111111111")],
        some "22222222-2222-2222-2222-222222222222"⟩ =
      some "11111111-1111-1111-1111-111111111111" ∧
    current_tenant_id ⟨some [("tenant_id", "11111111-1111-1111-1111-111111111111")],
        some "22222222-2222-2222-2222-222222222222"⟩ =
      some "11111111-1111-1111-1111-111111111111" :=
  ⟨by decide, (resolver_precedence_deterministic _ _ (by decide)).1⟩

/-- C1: tenant isolation under key collision. Under a request context resolved
to tenant `t2`, every row the RLS-filtered SELECT returns carries
`tenant_id = t2`; a Message row carrying a different tenant `t1` is never
returned, whatever non-tenant predicate (e.g. a shared chat id) the query
supplies; and WITH CHECK rejects inserting such a row under `t2`'s context. -/
theorem tenant_isolation_no_cross_tenant_rows (ctx : ReqCtx) (t1 t2 : String)
    (p : MessageRow → Bool) (table : List MessageRow) (m : MessageRow)
    (hres : current_tenant_id ctx = some t2) (hne : t1 ≠ t2)
    (hm : m.tenant_id = t1) :
    (∀ r ∈ rlsSelect ctx p table, r.tenant_id = t2) ∧
    m ∉ rlsSelect ctx p table ∧
    rlsInsert ctx m table = none := by
  have hall : ∀ r ∈ rlsSelect ctx p table, r.tenant_id = t2 := by
    intro r hr
    have h := (List.mem_filter.mp hr).2
    rw [Bool.and_eq_true] at h
    have h3 := h.1
    simp [tenantIsolationUsing, hres] at h3
    exact h3
  refine ⟨hall, ?_, ?_⟩
  · intro hm'
    exact hne (hm.symm.trans (hall m hm'))
  · unfold rlsInsert
    have hchk : tenantIsolationUsing ctx m = false := by
      simp [tenantIsolationUsing, hres, hm]
      exact hne
    simp [hchk]

/-- Witness for C1: the smoke-test scenario — both tenants hold a message in
the shared chat `shared_chat_123`; a read resolved to tenant 2222… returns
only its own row, excludes tenant 1111…'s row, and cannot insert it. -/
theorem tenant_isolation_no_cross_tenant_rows_witness :
    (∀ r ∈ rlsSelect ⟨some [("tenant_id", "22222222-2222-2222-2222-222222222222")], none⟩
        (fun r => r.chat_id == "shared_chat_123")
        [⟨"11111111-1111-1111-1111-111111111111", "shared_chat_123", "Secret message from Tenant A"⟩,
         ⟨"22222222-2222-2222-2222-222222222222", "shared_chat_123", "Secret message from Tenant B"⟩],
      r.tenant_id = "22222222-2222-2222-2222-222222222222") ∧
    (⟨"11111111-1111-1111-1111-111111111111", "shared_chat_123",
        "Secret message from Tenant A"⟩ : MessageRow) ∉
      rlsSelect ⟨some [("tenant_id", "22222222-2222-2222-2222-222222222222")], none⟩
        (fun r => r.chat_id == "shared_chat_123")
        [⟨"11111111-1111-1111-1111-111111111111", "shared_chat_123", "Secret message from Tenant A"⟩,
         ⟨"22222222-2222-2222-2222-222222222222", "shared_chat_123", "Secret message from Tenant B"⟩] ∧
    rlsInsert ⟨some [("tenant_id", "22222222-2222-2222-2222-222222222222")], none⟩
      ⟨"11111111-1111-1111-1111-111111111111", "shared_chat_123", "Secret message from Tenant A"⟩
      [⟨"11111111-1111-1111-1111-111111111111", "shared_chat_123", "Secret message from Tenant A"⟩,
       ⟨"22222222-2222-2222-2222-222222222222", "shared_chat_123", "Secret message from Tenant B"⟩] = none :=
  tenant_isolation_no_cross_tenant_rows _
    "11111111-1111-1111-1111-111111111111" "22222222-2222-2222-2222-222222222222"
    _ _ _ (by decide) (by decide) rfl

/-- C10: the job name `fee_` ++ chatId ++ `_` ++ feeId is sanitized and then
truncated to 50 characters, so once the sanitized chat id reaches 46
characters the fee id no longer contributes: the derived names for any two fee
ids coincide, and two distinct fees can collide on the globally unique
`cron_job_name`. -/
theorem fee_job_name_not_injective (chatId : String)
    (h : 46 ≤ (sanitizeJobName chatId).length) :
    ∀ feeId1 feeId2 : String, feeJobName chatId feeId1 = feeJobName chatId feeId2 := by
  intro f1 f2
  have hlen : 50 ≤ ((("fee_" ++ chatId) ++ "_").data.map sanChar).length := by
    have hc : (sanitizeJobName chatId).length = chatId.data.length := by
      unfold sanitizeJobName
      show (chatId.data.map sanChar).length = chatId.data.length
      exact List.length_map _ _
    rw [hc] at h
    have hsplit : ((("fee_" ++ chatId) ++ "_").data.map sanChar).length =
        "fee_".data.length + chatId.data.length + "_".data.length := by
      rw [List.length_map, String.data_append, String.data_append,
        List.length_append, List.length_append]
    rw [hsplit]
    have h4 : "fee_".data.length = 4 := by decide
    have h1 : "_".data.length = 1 := by decide
    omega
  have key : ∀ f : String,
      feeJobName chatId f =
        String.mk (((("fee_" ++ chatId) ++ "_").data.map sanChar).take 50) := by
    intro f
    unfold feeJobName
    congr 1
    rw [String.data_append, List.map_append]
    exact List.take_append_of_le_length hlen
  rw [key f1, key f2]

/-- Witness for C10: a 46-character chat id makes two distinct fee ids collide
on the same job name. -/
theorem fee_job_name_not_injective_witness :
    46 ≤ (sanitizeJobName "cccccccccccccccccccccccccccccccccccccccccccccc").length ∧
    feeJobName "cccccccccccccccccccccccccccccccccccccccccccccc"
        "aaaaaaaa-aaaa-aaaa-aaaa-aaaaaaaaaaaa" =
      feeJobName "cccccccccccccccccccccccccccccccccccccccccccccc"
        "bbbbbbbb-bbbb-bbbb-bbbb-bbbbbbbbbbbb" :=
  ⟨by decide, fee_job_name_not_injective _ (by decide) _ _⟩

/-- C3 counterexample: the derived job name never contains the tenant id (it
is a function of chat id and fee id alone), and names for distinct
(tenant, entity) pairs do collide: under a 46-character chat id the two
distinct fees `aaaa…` of tenant 1111… and `bbbb…` of tenant 2222… map to the
same job name, falsifying "names for distinct (tenant, entity) pairs never
collide across tenants". -/
theorem fee_trigger_names_collide_cex :
    ("11111111-1111-1111-1111-111111111111" : String) ≠
      "22222222-2222-2222-2222-222222222222" ∧
    ("aaaaaaaa-aaaa-aaaa-aaaa-aaaaaaaaaaaa" : String) ≠
      "bbbbbbbb-bbbb-bbbb-bbbb-bbbbbbbbbbbb" ∧
    feeJobName "0000000000000000000000000000000000000000000000"
        "aaaaaaaa-aaaa-aaaa-aaaa-aaaaaaaaaaaa" =
      feeJobName "0000000000000000000000000000000000000000000000"
        "bbbbbbbb-bbbb-bbbb-bbbb-bbbbbbbbbbbb" := by
  refine ⟨by decide, by decide, ?_⟩
  decide

/-- C3 amended: the job name is a deterministic function of
(chatId, feeId) — the tenant id is not part of it — and registering the same
(chatId, feeId) twice yields the same name, the timer registry is left
unchanged by the repeated registration, and exactly one job with that name is
active; but names for distinct (tenant, fee) pairs are not collision-free
once truncation applies (see the counterexample). -/
theorem fee_trigger_registration_idempotent (reg : List CronJob)
    (chatId feeId cronExpression : String)
    (h : countJob (feeJobName chatId feeId) reg ≤ 1) :
    registerFeeTrigger (registerFeeTrigger reg chatId feeId cronExpression)
        chatId feeId cronExpression =
      registerFeeTrigger reg chatId feeId cronExpression ∧
    countJob (feeJobName chatId feeId)
        (registerFeeTrigger (registerFeeTrigger reg chatId feeId cronExpression)
          chatId feeId cronExpression) = 1 := by
  unfold registerFeeTrigger
  refine ⟨cronRegistrySchedule_idem _ _ _, ?_⟩
  rw [cronRegistrySchedule_idem]
  exact countJob_schedule _ _ _ h

/-- Witness for C3 amended: registering the fee trigger twice for the same
(chat, fee) on an empty registry leaves exactly one active job. -/
theorem fee_trigger_registration_idempotent_witness :
    registerFeeTrigger (registerFeeTrigger [] "chat1" "f1" "0 9 5 * *")
        "chat1" "f1" "0 9 5 * *" =
      registerFeeTrigger [] "chat1" "f1" "0 9 5 * *" ∧
    countJob (feeJobName "chat1" "f1")
        (registerFeeTrigger (registerFeeTrigger [] "chat1" "f1" "0 9 5 * *")
          "chat1" "f1" "0 9 5 * *") = 1 :=
  fee_trigger_registration_idempotent [] "chat1" "f1" "0 9 5 * *" (by decide)

/-- C9: notifications_set_email_prefs is an upsert on the
(tenant_id, chat_id) primary key: on any table holding at most one row for
the key (the primary key invariant), one invocation leaves exactly one row
for the key, that row's email, email_enabled, calendar_provider and
default_reminder_minutes equal the invocation's arguments (last write wins),
and a second invocation with identical arguments changes nothing. -/
theorem email_prefs_upsert_idempotent (t c e : String) (en : Option Bool)
    (cal : Option String) (mins : Option Nat) (tbl : List NotifRow)
    (h : countNotifKey t c tbl ≤ 1) :
    countNotifKey t c (setEmailPrefs t c e en cal mins tbl) = 1 ∧
    (∀ r ∈ setEmailPrefs t c e en cal mins tbl,
      (r.tenant_id == t && r.chat_id == c) = true →
      r = ⟨t, c, e, en, cal, mins⟩) ∧
    setEmailPrefs t c e en cal mins (setEmailPrefs t c e en cal mins tbl) =
      setEmailPrefs t c e en cal mins tbl := by
  refine ⟨?_, ?_, ?_⟩
  · exact upsertNotif_count ⟨t, c, e, en, cal, mins⟩ tbl h
  · exact upsertNotif_key_rows ⟨t, c, e, en, cal, mins⟩ tbl h
  · exact upsertNotif_idem ⟨t, c, e, en, cal, mins⟩ tbl

/-- Witness for C9: upserting onto a table that already holds a row for the
key replaces it — exactly one row remains, carrying the latest arguments, and
repeating the call changes nothing. -/
theorem email_prefs_upsert_idempotent_witness :
    countNotifKey "t1" "chat1"
        (setEmailPrefs "t1" "chat1" "new@example.com" (some true) (some "google") (some 30)
          [⟨"t1", "chat1", "old@example.com", some false, some "outlook", some 60⟩]) = 1 ∧
    (∀ r ∈ setEmailPrefs "t1" "chat1" "new@example.com" (some true) (some "google") (some 30)
        [⟨"t1", "chat1", "old@example.com", some false, some "outlook", some 60⟩],
      (r.tenant_id == "t1" && r.chat_id == "chat1") = true →
      r = ⟨"t1", "chat1", "new@example.com", some true, some "google", some 30⟩) ∧
    setEmailPrefs "t1" "chat1" "new@example.com" (some true) (some "google") (some 30)
        (setEmailPrefs "t1" "chat1" "new@example.com" (some true) (some "google") (some 30)
          [⟨"t1", "chat1", "old@example.com", some false, some "outlook", some 60⟩]) =
      setEmailPrefs "t1" "chat1" "new@example.com" (some true) (some "google") (some 30)
        [⟨"t1", "chat1", "old@example.com", some false, some "outlook", some 60⟩] :=
  email_prefs_upsert_idempotent "t1" "chat1" "new@example.com" (some true)
    (some "google") (some 30)
    [⟨"t1", "chat1", "old@example.com", some false, some "outlook", some 60⟩] (by decide)

/-- C4: step-ceiling termination. The orchestration loop never takes more
steps than the ceiling, and a generation oracle that requests another tool
call on every step runs exactly `ceiling` steps, after which the delivery of
the last produced text is still attempted. -/
theorem step_ceiling_termination (gen : Nat → GenStep) (ceiling : Nat)
    (callbackUrl : String)
    (htool : ∀ i, (gen i).requestsTool = true) (hpos : 0 < ceiling) :
    (∀ g : Nat → GenStep, (orchestrate g ceiling).1 ≤ ceiling) ∧
    orchestrateAndDeliver gen ceiling callbackUrl =
      (ceiling, [⟨callbackUrl, (gen (ceiling - 1)).text⟩]) := by
  constructor
  · intro g
    have := runLoop_steps_le g ceiling 0 ""
    simpa [orchestrate] using this
  · unfold orchestrateAndDeliver orchestrate
    rw [runLoop_always_tool gen htool ceiling hpos 0 ""]
    simp

/-- Witness for C4: a generator that always requests a tool call stops after
the ceiling of 3 steps and the text of the last step is delivered. -/
theorem step_ceiling_termination_witness :
    orchestrateAndDeliver (fun i => ⟨toString i, true⟩) 3 "https://cb.example/out" =
      (3, [⟨"https://cb.example/out", "2"⟩]) := by
  have h := step_ceiling_termination (fun i => ⟨toString i, true⟩) 3
    "https://cb.example/out" (fun _ => rfl) (by omega)
  rw [h.2]
  rfl

/-- C5 counterexample: a request whose payload validates — so its tenant is
resolved — but whose conversation-history load fails is aborted by the
guarded handler with status 500, no message persisted and no delivery
attempted; a second silent failure class falsifies "this is the only failure
class that produces no user-visible reply". -/
theorem resolution_not_only_silent_failure_cex :
    parsePayload sampleRaw = some samplePayload ∧
    handleGuarded ⟨false, some "custom prompt", .ok "the reply", true, true, true, true, true⟩
      (some sampleRaw) = ⟨500, [], []⟩ := by
  constructor
  · decide
  · decide

/-- C5 amended: payload/tenant validation failure (and an unreadable body)
aborts the request with no persistence and no delivery; in the guarded
variant a message-load failure likewise aborts with no delivery; on every
other path — happy or failing — a delivery to the callback target is
attempted. -/
theorem tenant_resolution_fails_closed (env : HandlerEnv) (raw : RawPayload)
    (p : Payload) :
    handleGuarded env none = ⟨500, [], []⟩ ∧
    handleUnguarded env none = ⟨500, [], []⟩ ∧
    (parsePayload raw = none →
      handleGuarded env (some raw) = ⟨400, [], []⟩ ∧
      handleUnguarded env (some raw) = ⟨400, [], []⟩) ∧
    (parsePayload raw = some p → env.loadMessagesOk = true →
      (handleGuarded env (some raw)).deliveries ≠ []) ∧
    (parsePayload raw = some p →
      (handleUnguarded env (some raw)).deliveries ≠ []) := by
  refine ⟨rfl, rfl, ?_, ?_, ?_⟩
  · intro hnone
    exact ⟨by simp [handleGuarded, hnone], by simp [handleUnguarded, hnone]⟩
  · intro hp hload
    obtain ⟨L, ap, oR, eU, iU, eA, iA, d⟩ := env
    simp only at hload
    subst hload
    cases ap <;> cases d <;> simp [handleGuarded, hp]
  · intro hp
    obtain ⟨L, ap, oR, eU, iU, eA, iA, d⟩ := env
    cases L <;> cases oR <;> cases eU <;> cases iU <;> cases eA <;> cases iA <;>
      cases d <;> simp [handleUnguarded, hp]

/-- Witness for C5 amended: a malformed tenant id yields 400 with no
persistence and no delivery, while on an all-success environment both
handlers attempt a delivery. -/
theorem tenant_resolution_fails_closed_witness :
    handleGuarded envAllOk
      (some ⟨some "hello", some "shared_chat_123", some "u1", some "not-a-uuid",
        some "user", some "https://cb.example/out"⟩) = ⟨400, [], []⟩ ∧
    (handleGuarded envAllOk (some sampleRaw)).deliveries ≠ [] ∧
    (handleUnguarded envAllOk (some sampleRaw)).deliveries ≠ [] :=
  ⟨((tenant_resolution_fails_closed envAllOk
      ⟨some "hello", some "shared_chat_123", some "u1", some "not-a-uuid",
        some "user", some "https://cb.example/out"⟩ samplePayload).2.2.1 (by decide)).1,
   (tenant_resolution_fails_closed envAllOk sampleRaw samplePayload).2.2.2.1
     (by decide) rfl,
   (tenant_resolution_fails_closed envAllOk sampleRaw samplePayload).2.2.2.2
     (by decide)⟩

/-- C6 counterexample: in the unguarded variant a failing inbound-message
insert is not swallowed — it propagates to the top-level catch, so only one
Message row is appended and the callback receives the generic apology, never
the final reply "the reply": the claim's "a failure of either insert is
logged and swallowed" fails on this variant. -/
theorem persistence_failure_not_swallowed_cex :
    handleUnguarded envInsertFail (some sampleRaw) =
      ⟨500,
       [⟨"u1", "user", "hello", "shared_chat_123",
          "11111111-1111-1111-1111-111111111111"⟩],
       [⟨"https://cb.example/out", "Sorry, an internal error occurred."⟩]⟩ ∧
    (⟨"https://cb.example/out", "the reply"⟩ : Delivery) ∉
      (handleUnguarded envInsertFail (some sampleRaw)).deliveries := by
  constructor
  · decide
  · decide

/-- C6 amended: on a successfully resolved request, both Message rows (the
inbound content with its incoming role, then the assistant reply) are
insert-attempted and a delivery of the final reply to the callback target
follows. In the guarded variant (given an active system prompt row, since the
default-prompt path raises before persistence) embedding/insert failures are
swallowed and the final-reply delivery is always the first delivery
attempted; in the unguarded variant an insert failure instead propagates to
the top-level catch — which still attempts a delivery, but of the generic
apology (see the counterexample) — so the two-row append holds there only
when every storage step succeeds. -/
theorem persist_then_deliver (env : HandlerEnv) (raw : RawPayload) (p : Payload)
    (hparse : parsePayload raw = some p) (hload : env.loadMessagesOk = true)
    (hprompt : env.activePrompt.isSome = true) :
    (handleGuarded env (some raw)).deliveries.head? =
      some ⟨p.callbackUrl, guardedFinalResponse env⟩ ∧
    (env.embedUserOk = true → env.insertUserOk = true → env.embedAssistantOk = true →
      (handleGuarded env (some raw)).inserts =
        [⟨p.userId, p.incomingMessageRole, p.userPrompt, p.chatId, p.tenantId⟩,
         ⟨p.userId, "assistant", guardedFinalResponse env, p.chatId, p.tenantId⟩]) ∧
    (∀ t : String, env.openaiResult = .ok t → env.embedUserOk = true →
      env.insertUserOk = true → env.embedAssistantOk = true →
      env.insertAssistantOk = true →
      (handleUnguarded env (some raw)).inserts =
        [⟨p.userId, p.incomingMessageRole, p.userPrompt, p.chatId, p.tenantId⟩,
         ⟨p.userId, "assistant", t, p.chatId, p.tenantId⟩] ∧
      (handleUnguarded env (some raw)).deliveries.head? =
        some ⟨p.callbackUrl, t⟩) := by
  obtain ⟨L, ap, oR, eU, iU, eA, iA, d⟩ := env
  simp only at hload hprompt
  subst hload
  cases ap with
  | none => simp at hprompt
  | some promptText =>
    refine ⟨?_, ?_, ?_⟩
    · cases d <;> simp [handleGuarded, hparse]
    · intro h1 h2 h3
      simp only at h1 h2 h3
      subst h1; subst h2; subst h3
      cases d <;> simp [handleGuarded, hparse]
    · intro t hO h1 h2 h3 h4
      simp only at hO h1 h2 h3 h4
      subst hO; subst h1; subst h2; subst h3; subst h4
      cases d <;> simp [handleUnguarded, hparse]

/-- Witness for C6 amended: on the all-success environment both handlers
append exactly the two rows and deliver the final reply first. -/
theorem persist_then_deliver_witness :
    (handleGuarded envAllOk (some sampleRaw)).deliveries.head? =
      some ⟨"https://cb.example/out", "the reply"⟩ ∧
    (handleGuarded envAllOk (some sampleRaw)).inserts =
      [⟨"u1", "user", "hello", "shared_chat_123",
         "11111111-1111-1111-1111-111111111111"⟩,
       ⟨"u1", "assistant", "the reply", "shared_chat_123",
         "11111111-1111-1111-1111-111111111111"⟩] ∧
    (handleUnguarded envAllOk (some sampleRaw)).inserts =
      [⟨"u1", "user", "hello", "shared_chat_123",
         "11111111-1111-1111-1111-111111111111"⟩,
       ⟨"u1", "assistant", "the reply", "shared_chat_123",
         "11111111-1111-1111-1111-111111111111"⟩] :=
  ⟨(persist_then_deliver envAllOk sampleRaw samplePayload (by decide) rfl rfl).1,
   (persist_then_deliver envAllOk sampleRaw samplePayload (by decide) rfl rfl).2.1
     rfl rfl rfl,
   ((persist_then_deliver envAllOk sampleRaw samplePayload (by decide) rfl rfl).2.2
     "the reply" rfl rfl rfl rfl rfl).1⟩

/-- C7 counterexample: cancelling a fee whose cron job was already removed
out of band (the fee_jobs bookkeeping row names a job absent from the timer
registry) returns an error from the cancel call — the absence of the external
timer IS reported as an error — and the fee_jobs bookkeeping row is retained,
not removed (the fee row is merely deactivated). -/
theorem fees_cancel_missing_timer_cex :
    feesCancel ⟨true, true, true⟩ "t1" "chat1" "electricity" 5
      ⟨[⟨"f1", "t1", "chat1", "electricity", 5, none, "USD", none, true⟩],
       [⟨"t1", "f1", "fee_chat1_f1", "0 9 5 * *"⟩], [], [], []⟩ =
      (⟨[⟨"f1", "t1", "chat1", "electricity", 5, none, "USD", none, false⟩],
        [⟨"t1", "f1", "fee_chat1_f1", "0 9 5 * *"⟩], [], [], []⟩,
       .error ("Fee cancelled but failed to unschedule job: " ++
         "Failed to unschedule job: could not find valid entry")) := by
  decide

/-- C7 amended: `fees_cancel` marks the fee row inactive and unschedules the
cron job named by the fee_jobs bookkeeping row, which itself is retained, not
deleted; when no bookkeeping row exists the cancellation succeeds without
touching the timer registry, but when the bookkeeping row names a timer that
is already gone from the registry the unschedule failure is reported as an
error of the cancel call (the fee still ends up deactivated). -/
theorem fees_cancel_consistency (tenantId chatId fee_type : String) (due_day : Nat)
    (st : DbState) (fee : FeeRow)
    (hfind : st.fees.find? (fun f => f.tenant_id == tenantId && f.chat_id == chatId &&
        f.fee_type == fee_type && f.due_day == due_day && f.is_active) = some fee) :
    (∀ env : CancelEnv,
      (feesCancel env tenantId chatId fee_type due_day st).1.feeJobs = st.feeJobs) ∧
    (feesCancel ⟨true, true, true⟩ tenantId chatId fee_type due_day st).1.fees =
      st.fees.map (fun f => if f.id == fee.id && f.tenant_id == tenantId then
        { f with is_active := false } else f) ∧
    (st.feeJobs.find? (fun j => j.tenant_id == tenantId && j.fee_id == fee.id) = none →
      (feesCancel ⟨true, true, true⟩ tenantId chatId fee_type due_day st).2 =
        .ok ("✅ " ++ fee_type ++ " fee reminder for day " ++ toString due_day ++
          " has been cancelled.")) ∧
    (∀ j, st.feeJobs.find? (fun j => j.tenant_id == tenantId &&
        j.fee_id == fee.id) = some j →
      (∀ cj ∈ st.cron, cj.name ≠ j.cron_job_name) →
      ∃ e, (feesCancel ⟨true, true, true⟩ tenantId chatId fee_type due_day st).2 =
        .error e) ∧
    (∀ j reg', st.feeJobs.find? (fun j => j.tenant_id == tenantId &&
        j.fee_id == fee.id) = some j →
      isValidJobName j.cron_job_name = true →
      cronRegistryUnschedule j.cron_job_name st.cron = some reg' →
      (feesCancel ⟨true, true, true⟩ tenantId chatId fee_type due_day st).1.cron = reg' ∧
      (feesCancel ⟨true, true, true⟩ tenantId chatId fee_type due_day st).2 =
        .ok ("✅ " ++ fee_type ++ " fee reminder for day " ++ toString due_day ++
          " has been cancelled.")) := by
  refine ⟨?_, ?_, ?_, ?_, ?_⟩
  · intro env
    obtain ⟨sOk, uOk, jOk⟩ := env
    cases sOk
    · simp [feesCancel]
    · cases uOk
      · simp [feesCancel, hfind]
      · cases jOk
        · simp [feesCancel, hfind]
        · cases hfj : st.feeJobs.find? (fun j => j.tenant_id == tenantId &&
              j.fee_id == fee.id) with
          | none => simp [feesCancel, hfind, hfj]
          | some j =>
            cases hu : unscheduleCron j.cron_job_name st.cron with
            | error e => simp [feesCancel, hfind, hfj, hu]
            | ok cron' => simp [feesCancel, hfind, hfj, hu]
  · cases hfj : st.feeJobs.find? (fun j => j.tenant_id == tenantId &&
        j.fee_id == fee.id) with
    | none => simp [feesCancel, hfind, hfj]
    | some j =>
      cases hu : unscheduleCron j.cron_job_name st.cron with
      | error e => simp [feesCancel, hfind, hfj, hu]
      | ok cron' => simp [feesCancel, hfind, hfj, hu]
  · intro hempty
    simp [feesCancel, hfind, hempty]
  · intro j hj hnone
    have hu : cronRegistryUnschedule j.cron_job_name st.cron = none :=
      cronRegistryUnschedule_not_found _ _ hnone
    cases hv : isValidJobName j.cron_job_name
    · refine ⟨"Fee cancelled but failed to unschedule job: " ++
        "Invalid job name format", ?_⟩
      simp [feesCancel, hfind, hj, unscheduleCron, hv]
    · refine ⟨"Fee cancelled but failed to unschedule job: " ++
        "Failed to unschedule job: could not find valid entry", ?_⟩
      simp [feesCancel, hfind, hj, unscheduleCron, hv, hu]
  · intro j reg' hj hv hu
    constructor
    · simp [feesCancel, hfind, hj, unscheduleCron, hv, hu]
    · simp [feesCancel, hfind, hj, unscheduleCron, hv, hu]

/-- Witness for C7 amended: with the timer still registered, cancelling
removes the registry entry, reports success, and keeps the fee_jobs row. -/
theorem fees_cancel_consistency_witness :
    (feesCancel ⟨true, true, true⟩ "t1" "chat1" "electricity" 5
      ⟨[⟨"f1", "t1", "chat1", "electricity", 5, none, "USD", none, true⟩],
       [⟨"t1", "f1", "fee_chat1_f1", "0 9 5 * *"⟩], [], [],
       [⟨"fee_chat1_f1", "0 9 5 * *"⟩]⟩).1.cron = [] ∧
    (feesCancel ⟨true, true, true⟩ "t1" "chat1" "electricity" 5
      ⟨[⟨"f1", "t1", "chat1", "electricity", 5, none, "USD", none, true⟩],
       [⟨"t1", "f1", "fee_chat1_f1", "0 9 5 * *"⟩], [], [],
       [⟨"fee_chat1_f1", "0 9 5 * *"⟩]⟩).2 =
      .ok "✅ electricity fee reminder for day 5 has been cancelled." ∧
    (feesCancel ⟨true, true, true⟩ "t1" "chat1" "electricity" 5
      ⟨[⟨"f1", "t1", "chat1", "electricity", 5, none, "USD", none, true⟩],
       [⟨"t1", "f1", "fee_chat1_f1", "0 9 5 * *"⟩], [], [],
       [⟨"fee_chat1_f1", "0 9 5 * *"⟩]⟩).1.feeJobs =
      [⟨"t1", "f1", "fee_chat1_f1", "0 9 5 * *"⟩] := by
  have h := fees_cancel_consistency "t1" "chat1" "electricity" 5
    ⟨[⟨"f1", "t1", "chat1", "electricity", 5, none, "USD", none, true⟩],
     [⟨"t1", "f1", "fee_chat1_f1", "0 9 5 * *"⟩], [], [],
     [⟨"fee_chat1_f1", "0 9 5 * *"⟩]⟩
    ⟨"f1", "t1", "chat1", "electricity", 5, none, "USD", none, true⟩ (by decide)
  have h5 := h.2.2.2.2 ⟨"t1", "f1", "fee_chat1_f1", "0 9 5 * *"⟩ []
    (by decide) (by decide) (by decide)
  exact ⟨h5.1, h5.2, h.1 ⟨true, true, true⟩⟩

/-- C8 counterexample: with email settings configured and enabled but the
connector reporting failure on every call (success: false, the
CollaboratorUnavailable outcome), fees_create succeeds and returns exactly
the plain confirmation — the same string as a run with no email settings at
all — so the returned confirmation carries no note that the email/calendar
confirmation was skipped. -/
theorem fees_create_no_skip_note_cex :
    (feesCreate ⟨"f1", true, true, true, true, true, false, false, none⟩
        "t1" "chat1" "electricity" 5 none "USD" none
        ⟨[], [], [⟨"t1", "chat1", "a@b.c", some true, some "google", some 60⟩],
          [], []⟩).2 =
      .ok "✅ electricity fee reminder created for day 5 of each month" ∧
    (feesCreate ⟨"f1", true, true, true, true, true, false, false, none⟩
        "t1" "chat1" "electricity" 5 none "USD" none ⟨[], [], [], [], []⟩).2 =
      .ok "✅ electricity fee reminder created for day 5 of each month" := by
  constructor
  · decide
  · decide

/-- C8 amended: when every connector email call reports failure (including
the unavailable-connector case, where MCPClientManager.sendEmail returns
success: false), a create-recurring-fee invocation still succeeds: the fee
row is inserted, the recurring timer is scheduled under the derived job name,
the job row is recorded, and the plain confirmation is returned with the
email/calendar confirmation lines simply omitted (no explicit skip note) —
no unhandled error is raised. -/
theorem fees_create_degrades_gracefully (env : CreateEnv)
    (tenantId chatId fee_type : String) (due_day : Nat) (amount : Option Nat)
    (currency : String) (note : Option String) (st : DbState)
    (hmail : (env.mcpAvailable && env.sendEmailOk) = false)
    (hfee : env.insertFeeOk = true) (hsched : env.scheduleSqlOk = true)
    (hjob : env.insertJobOk = true) :
    ∃ st', feesCreate env tenantId chatId fee_type due_day amount currency note st =
        (st', .ok (feeConfirmation fee_type due_day amount currency note false false)) ∧
      st'.fees = st.fees ++ [⟨env.newFeeId, tenantId, chatId, fee_type, due_day,
        amount, currency, note, true⟩] ∧
      st'.cron = cronRegistrySchedule (feeJobName chatId env.newFeeId)
        ("0 9 " ++ toString due_day ++ " * *") st.cron ∧
      st'.feeJobs = st.feeJobs ++ [⟨tenantId, env.newFeeId,
        feeJobName chatId env.newFeeId, "0 9 " ++ toString due_day ++ " * *"⟩] := by
  refine ⟨⟨st.fees ++ [⟨env.newFeeId, tenantId, chatId, fee_type, due_day,
        amount, currency, note, true⟩],
      st.feeJobs ++ [⟨tenantId, env.newFeeId, feeJobName chatId env.newFeeId,
        "0 9 " ++ toString due_day ++ " * *"⟩],
      st.notifSettings, st.feeCalendarEvents,
      cronRegistrySchedule (feeJobName chatId env.newFeeId)
        ("0 9 " ++ toString due_day ++ " * *") st.cron⟩, ?_, rfl, rfl, rfl⟩
  unfold feesCreate
  rw [hfee]
  simp only [Bool.not_true, Bool.false_eq_true, if_false]
  unfold scheduleCron
  rw [feeJobName_valid, hsched]
  simp only [Bool.not_true, Bool.false_eq_true, if_false]
  rw [hjob]
  simp only [if_true]
  rw [feesCreateEmailBranch_no_email env tenantId chatId env.newFeeId _ hmail]

/-- Witness for C8 amended: a concrete run with settings enabled but the
connector failing every call creates the fee, schedules the timer and
returns the plain confirmation. -/
theorem fees_create_degrades_gracefully_witness :
    ∃ st', feesCreate ⟨"f1", true, true, true, true, true, false, false, none⟩
        "t1" "chat1" "electricity" 5 none "USD" none
        ⟨[], [], [⟨"t1", "chat1", "a@b.c", some true, some "google", some 60⟩],
          [], []⟩ =
        (st', .ok (feeConfirmation "electricity" 5 none "USD" none false false)) ∧
      st'.fees = [] ++ [⟨"f1", "t1", "chat1", "electricity", 5, none, "USD", none, true⟩] ∧
      st'.cron = cronRegistrySchedule (feeJobName "chat1" "f1")
        ("0 9 " ++ toString 5 ++ " * *") [] ∧
      st'.feeJobs = [] ++ [⟨"t1", "f1", feeJobName "chat1" "f1",
        "0 9 " ++ toString 5 ++ " * *"⟩] :=
  fees_create_degrades_gracefully ⟨"f1", true, true, true, true, true, false, false, none⟩
    "t1" "chat1" "electricity" 5 none "USD" none
    ⟨[], [], [⟨"t1", "chat1", "a@b.c", some true, some "google", some 60⟩], [], []⟩
    rfl rfl rfl rfl

end NaturalDB
